import Mathlib

/-!
# SaveBite data-layer core: a shallow embedding

This file embeds the pseudo-API layer of the SaveBite marketplace
(`src/cart.js`, `src/listing.js`, `src/JS/utils.js`) in Lean and proves
properties of it.  JS numbers are modelled as exact rationals (`ℚ`) for
prices and as integers (`Int`) for quantities and millisecond timestamps;
JS strings are `String`; the `localStorage`-backed collections become an
explicit `Store` record threaded through every operation.  Each operation
mirrors the corresponding source function statement by statement.
-/

namespace SaveBite

/-- A user record, as built by the `User` class and registration
(`src/cart.js:1885`). -/
structure User where
  id : String
  name : String
  email : String
  role : String
  password : String
  createdAt : Int
  status : String
  businessName : String := ""
  updatedAt : Option Int := none
  deriving Repr, DecidableEq

/-- A session record (`src/cart.js:1908`): `expiresAt = createdAt + 7 days`. -/
structure Session where
  userId : String
  userEmail : String
  userName : String
  userRole : String
  createdAt : Int
  expiresAt : Int
  deriving Repr, DecidableEq

/-- A listing record (`src/cart.js:919`, mock data at `src/cart.js:600`). -/
structure Listing where
  id : String
  businessId : String
  businessName : String
  foodName : String
  category : String
  description : String
  originalPrice : ℚ
  discountedPrice : ℚ
  quantity : Int
  expiryDate : Int
  imageUrl : String := ""
  pickupOnly : Bool := true
  pickupAddress : String := ""
  createdAt : Int
  status : String
  updatedAt : Option Int := none
  deriving Repr, DecidableEq

/-- A cart item: the denormalized snapshot of a listing taken at
add-to-cart time (see the cart item fields used in `src/cart.js`). -/
structure CartItem where
  id : String
  businessId : String
  businessName : String
  name : String
  originalPrice : ℚ
  discountedPrice : ℚ
  quantity : Int
  imageUrl : String := ""
  expiryDate : Int := 0
  pickupOnly : Bool := true
  pickupAddress : String := ""
  deriving Repr, DecidableEq

/-- The singleton cart object (`{ items: [] }` in the source). -/
structure Cart where
  items : List CartItem
  deriving Repr, DecidableEq

/-- The order-details object assembled by the checkout form
(`src/cart.js:432`).  A `pickupTime` of `none` models a missing/unparsable
time. -/
structure OrderData where
  customerName : String
  customerEmail : String
  customerPhone : String
  pickupTime : Option Int
  notes : String := ""
  pickupLocationId : String := ""
  pickupLocationName : String := ""
  pickupAddress : String := ""
  deriving Repr, DecidableEq

/-- An order record, as built by `ApiService.createOrder`
(`src/cart.js:1258`). -/
structure Order where
  id : String
  userId : String
  userName : String
  userEmail : String
  items : List CartItem
  customerName : String
  customerEmail : String
  customerPhone : String
  pickupTime : Option Int
  notes : String
  pickupLocationId : String
  pickupLocationName : String
  pickupAddress : String
  subtotal : ℚ
  savings : ℚ
  tax : ℚ
  total : ℚ
  status : String
  createdAt : Int
  updatedAt : Option Int := none
  deriving Repr, DecidableEq

/-- The whole persisted state: the four `localStorage` collections
(`USERS_KEY`, `LISTINGS_KEY`, `ORDERS_KEY`, `CART_KEY`) plus the session
(`SESSION_KEY`). -/
structure Store where
  users : List User
  listings : List Listing
  orders : List Order
  cart : Cart
  session : Option Session
  deriving Repr, DecidableEq

/-- The discriminated result shape `{ success, message }` every API method
resolves with. -/
structure ApiResult where
  success : Bool
  message : String := ""
  deriving Repr, DecidableEq

/-! ## Utility functions (`src/JS/utils.js`) -/

/-- `calculateDiscount` (`src/JS/utils.js:42`):
`Math.round(((originalPrice - discountedPrice) / originalPrice) * 100)`.
Lean's `round` is `⌊x + 1/2⌋`, which agrees with JS `Math.round`. -/
def calculateDiscount (originalPrice discountedPrice : ℚ) : ℤ :=
  round ((originalPrice - discountedPrice) / originalPrice * 100)

/-- `isExpired` (`src/JS/utils.js:59`): `new Date(date) < now`. -/
def isExpired (date now : Int) : Bool :=
  decide (date < now)

/-! ## Session resolution (`AuthService`, `src/cart.js:1978`) -/

/-- `AuthService.getSession` (`src/cart.js:1978`): returns the stored
session unless it has expired, in which case `logout()` deletes it as a
side effect of the read. -/
def getSession (st : Store) (now : Int) : Option Session × Store :=
  match st.session with
  | none => (none, st)
  | some s =>
      if s.expiresAt ≤ now then (none, { st with session := none })
      else (some s, st)

/-- `AuthService.getCurrentUser` (`src/cart.js:2118`): resolves the session
to a user via `users.find((user) => user.id === session.userId) || null`. -/
def getCurrentUser (st : Store) (now : Int) : Option User × Store :=
  match getSession st now with
  | (none, st1) => (none, st1)
  | (some s, st1) => (st1.users.find? (fun u => u.id == s.userId), st1)

/-- `AuthService.login` (`src/cart.js:2062`). -/
def login (st : Store) (now : Int) (email password : String) :
    ApiResult × Store :=
  if email = "" ∨ password = "" then
    ({ success := false, message := "Email and password are required" }, st)
  else
    match st.users.find? (fun u => u.email.toLower == email.toLower) with
    | none => ({ success := false, message := "Invalid email or password" }, st)
    | some user =>
        if user.password ≠ password then
          ({ success := false, message := "Invalid email or password" }, st)
        else if user.status = "blocked" then
          ({ success := false,
             message := "Your account has been blocked. Please contact support." }, st)
        else
          let s : Session :=
            { userId := user.id, userEmail := user.email,
              userName := user.name, userRole := user.role,
              createdAt := now,
              expiresAt := now + 7 * 24 * 60 * 60 * 1000 }
          ({ success := true, message := "Login successful!" },
           { st with session := some s })

/-! ## Catalog (`ApiService`, `src/cart.js:790`) -/

/-- The lazy expiry flip applied to each listing by `getListings`
(`src/cart.js:798`): an active listing whose expiry date has passed
becomes `expired`; every other listing is returned unchanged. -/
def expireFlip (now : Int) (l : Listing) : Listing :=
  if isExpired l.expiryDate now ∧ l.status = "active" then
    { l with status := "expired" }
  else l

/-- The optional filters accepted by `getListings` (`none` models an
absent or falsy filter field). -/
structure ListingFilters where
  businessId : Option String := none
  status : Option String := none
  category : Option String := none
  search : Option String := none
  sortKey : Option String := none
  limit : Option Nat := none
  deriving Repr

/-- Insertion of one element into a list sorted by the boolean comparator
`le` (used to model `Array.prototype.sort`). -/
def insertLe {α : Type} (le : α → α → Bool) (x : α) : List α → List α
  | [] => [x]
  | y :: ys => if le x y then x :: y :: ys else y :: insertLe le x ys

/-- A sort modelling `Array.prototype.sort(cmp)`; any conforming JS sort
produces some permutation ordered by the comparator, and so does this one. -/
def sortLe {α : Type} (le : α → α → Bool) : List α → List α
  | [] => []
  | x :: xs => insertLe le x (sortLe le xs)

/-- Character-list prefix test, for modelling `String.prototype.includes`. -/
def startMatch : List Char → List Char → Bool
  | [], _ => true
  | _ :: _, [] => false
  | a :: as, b :: bs => a == b && startMatch as bs

/-- Character-list substring test, for modelling `String.prototype.includes`. -/
def subMatch (t : List Char) : List Char → Bool
  | [] => startMatch t []
  | b :: rest => startMatch t (b :: rest) || subMatch t rest

/-- Case-insensitive substring search over foodName/description/businessName
(`src/cart.js:832`). -/
def searchMatches (term : String) (l : Listing) : Bool :=
  let t := (term.toLower).data
  subMatch t (l.foodName.toLower).data ||
    subMatch t (l.description.toLower).data ||
    subMatch t (l.businessName.toLower).data

/-- The comparators of the `sortBy` switch in `getListings`
(`src/cart.js:843`). -/
def listingLe (key : String) (a b : Listing) : Bool :=
  if key = "expiry" then decide (a.expiryDate ≤ b.expiryDate)
  else if key = "price-asc" then decide (a.discountedPrice ≤ b.discountedPrice)
  else if key = "price-desc" then decide (b.discountedPrice ≤ a.discountedPrice)
  else
    decide ((b.originalPrice - b.discountedPrice) / b.originalPrice ≤
      (a.originalPrice - a.discountedPrice) / a.originalPrice)

/-- `ApiService.getListings` (`src/cart.js:790`): flips expired listings and
persists the flip, then filters, sorts and caps the returned sequence.
Returns the response together with the updated store. -/
def getListings (st : Store) (now : Int) (f : ListingFilters) :
    List Listing × Store :=
  let flipped := st.listings.map (expireFlip now)
  let st1 := { st with listings := flipped }
  let r := flipped
  let r := match f.businessId with
    | some bid => r.filter (fun l => l.businessId == bid)
    | none => r
  let r := match f.status with
    | some s => r.filter (fun l => l.status == s)
    | none => r
  let r := match f.category with
    | some c => if c ≠ "all" then r.filter (fun l => l.category == c) else r
    | none => r
  let r := match f.search with
    | some t => r.filter (searchMatches t)
    | none => r
  let r := match f.sortKey with
    | some k =>
        if k = "expiry" ∨ k = "price-asc" ∨ k = "price-desc" ∨ k = "discount"
        then sortLe (listingLe k) r else r
    | none => r
  let r := match f.limit with
    | some n => if n < r.length then r.take n else r
    | none => r
  (r, st1)

/-! ## Cart (`ApiService`, `src/cart.js:1060`) -/

/-- `ApiService.addToCart` (`src/cart.js:1081`): if an entry with the same
id exists, add the incoming quantity onto it; otherwise append the item.
No bound against the listing's stock is checked anywhere. -/
def addItem (items : List CartItem) (item : CartItem) : List CartItem :=
  match items with
  | [] => [item]
  | i :: rest =>
      if i.id = item.id then { i with quantity := i.quantity + item.quantity } :: rest
      else i :: addItem rest item

/-- `addToCart` lifted to the store: the cart collection is read, mutated
and written back; nothing else is touched. -/
def addToCart (st : Store) (item : CartItem) : Store :=
  if st.cart.items.any (fun i => i.id == item.id) then
    { st with cart := { items := addItem st.cart.items item } }
  else
    { st with cart := { items := st.cart.items ++ [item] } }

/-! ## Orders (`ApiService`, `src/cart.js:1169`) -/

/-- The optional filters accepted by `getOrders` (`src/cart.js:1176`). -/
structure OrderFilters where
  userId : Option String := none
  businessId : Option String := none
  status : Option String := none
  deriving Repr

/-- `ApiService.getOrders` (`src/cart.js:1176`): filter by customer id, by
business id (orders with at least one item of that business), by status
(unless `"all"`), then sort newest first.  Read-only. -/
def getOrders (st : Store) (f : OrderFilters) : List Order :=
  let r := st.orders
  let r := match f.userId with
    | some uid => r.filter (fun o => o.userId == uid)
    | none => r
  let r := match f.businessId with
    | some bid => r.filter (fun o => o.items.any (fun i => i.businessId == bid))
    | none => r
  let r := match f.status with
    | some s => if s ≠ "all" then r.filter (fun o => o.status == s) else r
    | none => r
  sortLe (fun a b => decide (b.createdAt ≤ a.createdAt)) r

/-- The order subtotal (`src/cart.js:1265`):
`cart.items.reduce((total, item) => total + item.discountedPrice * item.quantity, 0)`. -/
def orderSubtotal (items : List CartItem) : ℚ :=
  items.foldl (fun total item => total + item.discountedPrice * item.quantity) 0

/-- The order savings (`src/cart.js:1269`). -/
def orderSavings (items : List CartItem) : ℚ :=
  items.foldl
    (fun total item =>
      total + (item.originalPrice - item.discountedPrice) * item.quantity) 0

/-- The order tax (`src/cart.js:1275`): per-item `... * 0.08`, assuming 8% tax. -/
def orderTax (items : List CartItem) : ℚ :=
  items.foldl
    (fun total item => total + item.discountedPrice * item.quantity * 0.08) 0

/-- The order total (`src/cart.js:1280`): per-item `... * 1.08`, including tax. -/
def orderTotal (items : List CartItem) : ℚ :=
  items.foldl
    (fun total item => total + item.discountedPrice * item.quantity * 1.08) 0

/-- One step of the listing update loop of `createOrder`
(`src/cart.js:1299`): find the first listing with the purchased item's id,
decrement its quantity, and mark it sold-out when the result is `≤ 0`.
When no listing matches, the item is skipped silently. -/
def decrementFirst (listings : List Listing) (item : CartItem) : List Listing :=
  match listings with
  | [] => []
  | l :: rest =>
      if l.id = item.id then
        { l with quantity := l.quantity - item.quantity,
                 status := if l.quantity - item.quantity ≤ 0 then "sold-out"
                           else l.status } :: rest
      else l :: decrementFirst rest item

/-- The result shape of `createOrder`: `{ success, message }` on failure,
`{ success: true, order }` on success. -/
structure CreateOrderResult where
  success : Bool
  message : String := ""
  order : Option Order := none
  deriving Repr, DecidableEq

/-- The `newOrder` object literal of `createOrder` (`src/cart.js:1258`):
the cart snapshot plus the spread order details and the derived totals. -/
def newOrderOf (cu : User) (items : List CartItem) (d : OrderData)
    (now : Int) (newId : String) : Order :=
  { id := newId, userId := cu.id, userName := cu.name,
    userEmail := cu.email,
    items := items,
    customerName := d.customerName, customerEmail := d.customerEmail,
    customerPhone := d.customerPhone, pickupTime := d.pickupTime,
    notes := d.notes, pickupLocationId := d.pickupLocationId,
    pickupLocationName := d.pickupLocationName,
    pickupAddress := d.pickupAddress,
    subtotal := orderSubtotal items,
    savings := orderSavings items,
    tax := orderTax items,
    total := orderTotal items,
    status := "pending", createdAt := now }

/-- `ApiService.createOrder` (`src/cart.js:1234`): requires an authenticated
user and a non-empty cart; snapshots the cart into a pending order with
derived totals, appends it to the orders collection, decrements each
purchased listing's quantity (sold-out at `≤ 0`, missing listings skipped),
and clears the cart.  `newId` stands for the fresh `generateId()` value. -/
def createOrder (st : Store) (now : Int) (newId : String) (d : OrderData) :
    CreateOrderResult × Store :=
  match getCurrentUser st now with
  | (none, st1) =>
      ({ success := false,
         message := "Unauthorized: Please log in to place an order" }, st1)
  | (some cu, st1) =>
      if st1.cart.items = [] then
        ({ success := false, message := "Cart is empty" }, st1)
      else
        let newOrder : Order := newOrderOf cu st1.cart.items d now newId
        ({ success := true, order := some newOrder },
         { st1 with
             orders := st1.orders ++ [newOrder],
             listings := st1.cart.items.foldl decrementFirst st1.listings,
             cart := { items := [] } })

/-- The required-field and pickup-time validation performed by
`CartService.submitCheckoutForm` (`src/cart.js:447`) before it calls
`createOrder`: all of customerName/Email/Phone must be non-empty and the
pickup time must parse and lie strictly in the future. -/
def checkoutValid (d : OrderData) (now : Int) : Bool :=
  decide (d.customerName ≠ "") && decide (d.customerEmail ≠ "") &&
    decide (d.customerPhone ≠ "") &&
    (match d.pickupTime with
     | none => false
     | some t => decide (now < t))

/-- `CartService.submitCheckoutForm` (`src/cart.js:417`), restricted to its
data path: validate the order details and only then call `createOrder`;
on validation failure nothing is called and the store is untouched. -/
def submitCheckoutForm (st : Store) (now : Int) (newId : String)
    (d : OrderData) : Bool × Store :=
  if checkoutValid d now then
    let (r, st1) := createOrder st now newId d
    (r.success, st1)
  else
    (false, st)

/-- The in-place mutation of `updateOrderStatus` (`src/cart.js:1377`):
set `status` and `updatedAt` on the first order with the given id. -/
def setOrderStatusFirst (orders : List Order) (id status : String)
    (now : Int) : List Order :=
  match orders with
  | [] => []
  | o :: rest =>
      if o.id = id then { o with status := status, updatedAt := some now } :: rest
      else o :: setOrderStatusFirst rest id status now

/-- `ApiService.updateOrderStatus` (`src/cart.js:1329`): caller must be a
business or admin; the order must exist; a business caller must own at
least one item of the order; then only `status` and `updatedAt` change. -/
def updateOrderStatus (st : Store) (now : Int) (id status : String) :
    ApiResult × Store :=
  match getCurrentUser st now with
  | (none, st1) =>
      ({ success := false,
         message := "Unauthorized: Only businesses can update orders" }, st1)
  | (some cu, st1) =>
      if cu.role ≠ "business" ∧ cu.role ≠ "admin" then
        ({ success := false,
           message := "Unauthorized: Only businesses can update orders" }, st1)
      else
        match st1.orders.find? (fun o => o.id == id) with
        | none => ({ success := false, message := "Order not found" }, st1)
        | some order =>
            if cu.role = "business" ∧
                ¬ (order.items.any (fun i => i.businessId == cu.id)) = true then
              ({ success := false,
                 message := "Unauthorized: You can only update orders for your listings" },
               st1)
            else
              ({ success := true, message := "Order status updated" },
               { st1 with orders := setOrderStatusFirst st1.orders id status now })

/-! ## User administration (`ApiService`, `src/cart.js:1485`) -/

/-- The in-place mutation of `updateUserStatus` (`src/cart.js:1517`). -/
def setUserStatusFirst (users : List User) (id status : String)
    (now : Int) : List User :=
  match users with
  | [] => []
  | u :: rest =>
      if u.id = id then { u with status := status, updatedAt := some now } :: rest
      else u :: setUserStatusFirst rest id status now

/-- `ApiService.updateUserStatus` (`src/cart.js:1485`): caller must be an
admin, the target must exist, and self-blocking is refused before any
mutation happens. -/
def updateUserStatus (st : Store) (now : Int) (id status : String) :
    ApiResult × Store :=
  match getCurrentUser st now with
  | (none, st1) =>
      ({ success := false,
         message := "Unauthorized: Only admins can update user status" }, st1)
  | (some cu, st1) =>
      if cu.role ≠ "admin" then
        ({ success := false,
           message := "Unauthorized: Only admins can update user status" }, st1)
      else if (st1.users.find? (fun u => u.id == id)).isNone then
        ({ success := false, message := "User not found" }, st1)
      else if id = cu.id then
        ({ success := false, message := "You cannot block your own account" }, st1)
      else
        ({ success := true, message := "User status updated successfully" },
         { st1 with users := setUserStatusFirst st1.users id status now })

/-! ## Helper lemmas -/

/-- Closed form of `getCurrentUser`. -/
theorem getCurrentUser_sem (st : Store) (now : Int) :
    getCurrentUser st now =
      match st.session with
      | none => (none, st)
      | some s =>
          if s.expiresAt ≤ now then (none, { st with session := none })
          else (st.users.find? (fun u => u.id == s.userId), st) := by
  unfold getCurrentUser getSession
  cases st.session with
  | none => rfl
  | some s => by_cases h : s.expiresAt ≤ now <;> simp [h]

/-- Resolving the current user never touches the users, listings, orders
or cart collections: only the session can change (expiry logout). -/
theorem getCurrentUser_frame (st : Store) (now : Int) :
    ((getCurrentUser st now).2).users = st.users ∧
    ((getCurrentUser st now).2).listings = st.listings ∧
    ((getCurrentUser st now).2).orders = st.orders ∧
    ((getCurrentUser st now).2).cart = st.cart := by
  rw [getCurrentUser_sem]
  cases st.session with
  | none => exact ⟨rfl, rfl, rfl, rfl⟩
  | some s => by_cases h : s.expiresAt ≤ now <;> simp [h]

/-- With a valid (unexpired) session, `getCurrentUser` is a pure read. -/
theorem getCurrentUser_valid (st : Store) (now : Int) (s : Session)
    (hs : st.session = some s) (hv : now < s.expiresAt) :
    getCurrentUser st now =
      (st.users.find? (fun u => u.id == s.userId), st) := by
  rw [getCurrentUser_sem, hs]
  simp [not_le.mpr hv]

/-- When no listing carries the purchased item's id, the update loop of
`createOrder` skips the item silently. -/
theorem decrementFirst_skip (listings : List Listing) (item : CartItem)
    (h : ∀ l ∈ listings, l.id ≠ item.id) :
    decrementFirst listings item = listings := by
  induction listings with
  | nil => rfl
  | cons l rest ih =>
      unfold decrementFirst
      rw [if_neg (h l (List.mem_cons_self l rest)),
        ih (fun x hx => h x (List.mem_cons_of_mem l hx))]

/-- When the first listing with the purchased id sits after a prefix of
non-matching listings, only that listing is rewritten. -/
theorem decrementFirst_hit (pre post : List Listing) (L : Listing)
    (item : CartItem) (hpre : ∀ l ∈ pre, l.id ≠ item.id)
    (hL : L.id = item.id) :
    decrementFirst (pre ++ L :: post) item =
      pre ++ { L with quantity := L.quantity - item.quantity,
                      status := if L.quantity - item.quantity ≤ 0 then "sold-out"
                                else L.status } :: post := by
  induction pre with
  | nil =>
      show decrementFirst (L :: post) item = _
      unfold decrementFirst
      rw [if_pos hL]
      rfl
  | cons p rest ih =>
      show decrementFirst (p :: (rest ++ L :: post)) item = _
      unfold decrementFirst
      rw [if_neg (hpre p (List.mem_cons_self p rest)),
        ih (fun x hx => hpre x (List.mem_cons_of_mem p hx))]
      rfl

/-- Every listing surviving one step of the update loop is either an
original listing or the first id-matching listing with its quantity
decremented. -/
theorem decrementFirst_mem (listings : List Listing) (item : CartItem) :
    ∀ l1 ∈ decrementFirst listings item,
      l1 ∈ listings ∨
        ∃ l ∈ listings, l.id = item.id ∧ l1.id = l.id ∧
          l1.quantity = l.quantity - item.quantity := by
  induction listings with
  | nil => intro l1 h1; cases h1
  | cons l rest ih =>
      intro l1 h1
      unfold decrementFirst at h1
      by_cases h : l.id = item.id
      · rw [if_pos h] at h1
        rcases List.mem_cons.mp h1 with he | ht
        · exact Or.inr ⟨l, List.mem_cons_self l rest, h, by rw [he], by rw [he]⟩
        · exact Or.inl (List.mem_cons_of_mem l ht)
      · rw [if_neg h] at h1
        rcases List.mem_cons.mp h1 with he | ht
        · rw [he]; exact Or.inl (List.mem_cons_self l rest)
        · rcases ih l1 ht with h2 | ⟨l2, hl2, h3⟩
          · exact Or.inl (List.mem_cons_of_mem l h2)
          · exact Or.inr ⟨l2, List.mem_cons_of_mem l hl2, h3⟩

/-- Inserting into a sorted list is a permutation of consing. -/
theorem insertLe_perm {α : Type} (le : α → α → Bool) (x : α) (l : List α) :
    List.Perm (insertLe le x l) (x :: l) := by
  induction l with
  | nil => exact List.Perm.refl [x]
  | cons y ys ih =>
      unfold insertLe
      by_cases h : le x y = true
      · rw [if_pos h]
      · rw [if_neg h]
        exact (List.Perm.cons y ih).trans (List.Perm.swap x y ys)

/-- The modelled `Array.prototype.sort` permutes its input. -/
theorem sortLe_perm {α : Type} (le : α → α → Bool) (l : List α) :
    List.Perm (sortLe le l) l := by
  induction l with
  | nil => exact List.Perm.refl []
  | cons x xs ih =>
      exact (insertLe_perm le x (sortLe le xs)).trans (List.Perm.cons x ih)

/-- The `updateOrderStatus` mutation rewrites at most the first id-matching
order, and there it changes only `status` and `updatedAt`. -/
theorem setOrderStatusFirst_forall₂ (orders : List Order) (id status : String)
    (now : Int) :
    List.Forall₂
      (fun o o2 => o2 = o ∨ (o.id = id ∧
        o2 = { o with status := status, updatedAt := some now }))
      orders (setOrderStatusFirst orders id status now) := by
  induction orders with
  | nil => exact List.Forall₂.nil
  | cons o rest ih =>
      unfold setOrderStatusFirst
      by_cases h : o.id = id
      · rw [if_pos h]
        exact List.Forall₂.cons (Or.inr ⟨h, rfl⟩)
          (List.forall₂_same.mpr (fun x _ => Or.inl rfl))
      · rw [if_neg h]
        exact List.Forall₂.cons (Or.inl rfl) ih

/-- Folding an additive accumulator is summing. -/
theorem foldl_add_eq (g : CartItem → ℚ) (items : List CartItem) (a : ℚ) :
    items.foldl (fun t i => t + g i) a = a + (items.map g).sum := by
  induction items generalizing a with
  | nil => simp
  | cons i rest ih => simp only [List.foldl_cons, List.map_cons, List.sum_cons, ih]; ring

/-- Constant factors move out of the mapped sums of `createOrder`. -/
theorem sum_map_mul_const (c : ℚ) (g : CartItem → ℚ) (items : List CartItem) :
    (items.map (fun i => g i * c)).sum = c * (items.map g).sum := by
  induction items with
  | nil => simp
  | cons i rest ih => simp only [List.map_cons, List.sum_cons, ih]; ring

/-- `orderSubtotal` as a mapped sum. -/
theorem orderSubtotal_eq (items : List CartItem) :
    orderSubtotal items =
      (items.map (fun i => i.discountedPrice * (i.quantity : ℚ))).sum := by
  have h := foldl_add_eq (fun i => i.discountedPrice * (i.quantity : ℚ)) items 0
  simpa [orderSubtotal] using h

/-- `orderSavings` as a mapped sum. -/
theorem orderSavings_eq (items : List CartItem) :
    orderSavings items =
      (items.map (fun i =>
        (i.originalPrice - i.discountedPrice) * (i.quantity : ℚ))).sum := by
  have h := foldl_add_eq
    (fun i => (i.originalPrice - i.discountedPrice) * (i.quantity : ℚ)) items 0
  simpa [orderSavings] using h

/-- `orderTax` is 8% of `orderSubtotal`. -/
theorem orderTax_eq (items : List CartItem) :
    orderTax items = 0.08 * orderSubtotal items := by
  have h := foldl_add_eq
    (fun i => i.discountedPrice * (i.quantity : ℚ) * 0.08) items 0
  rw [orderSubtotal_eq]
  have h2 := sum_map_mul_const 0.08
    (fun i => i.discountedPrice * (i.quantity : ℚ)) items
  simpa [orderTax, h2] using h

/-- `orderTotal` is `orderSubtotal + orderTax`. -/
theorem orderTotal_eq (items : List CartItem) :
    orderTotal items = orderSubtotal items + orderTax items := by
  have h := foldl_add_eq
    (fun i => i.discountedPrice * (i.quantity : ℚ) * 1.08) items 0
  have h2 := sum_map_mul_const 1.08
    (fun i => i.discountedPrice * (i.quantity : ℚ)) items
  rw [orderSubtotal_eq, orderTax_eq, orderSubtotal_eq]
  have h3 : (1.08 : ℚ) = 1 + 0.08 := by norm_num
  rw [orderTotal]
  have h4 := h.trans (by rw [h2])
  simpa [h3, add_mul, one_mul] using h4.trans (by ring)

/-- The expiry flip is idempotent at a fixed instant. -/
theorem expireFlip_idem (now : Int) (l : Listing) :
    expireFlip now (expireFlip now l) = expireFlip now l := by
  unfold expireFlip
  by_cases h : isExpired l.expiryDate now = true ∧ l.status = "active"
  · rw [if_pos h]; simp
  · rw [if_neg h, if_neg h]

/-- An expired listing is never flipped back by a later read. -/
theorem expireFlip_keeps_expired (t : Int) (l : Listing)
    (h : l.status = "expired") : (expireFlip t l).status = "expired" := by
  unfold expireFlip
  rw [if_neg]
  · exact h
  · intro hc
    rw [h] at hc
    exact absurd hc.2 (by decide)

/-! ## Concrete witness data -/

/-- A customer for the concrete scenarios. -/
def uAlice : User :=
  { id := "u1", name := "Alice", email := "alice@example.com",
    role := "customer", password := "pw1", createdAt := 0, status := "active" }

/-- An unexpired session for `uAlice` (7 days in ms). -/
def sAlice : Session :=
  { userId := "u1", userEmail := "alice@example.com", userName := "Alice",
    userRole := "customer", createdAt := 0, expiresAt := 604800000 }

/-- A bakery listing with two loaves in stock. -/
def lBread : Listing :=
  { id := "L1", businessId := "b1", businessName := "Bakery",
    foodName := "Bread", category := "bakery", description := "Fresh loaf",
    originalPrice := 8, discountedPrice := 5, quantity := 2,
    expiryDate := 999999999, createdAt := 0, status := "active" }

/-- The cart snapshot of `lBread` with quantity 2. -/
def iBread : CartItem :=
  { id := "L1", businessId := "b1", businessName := "Bakery", name := "Bread",
    originalPrice := 8, discountedPrice := 5, quantity := 2 }

/-- Complete, valid checkout details. -/
def dGood : OrderData :=
  { customerName := "Alice", customerEmail := "alice@example.com",
    customerPhone := "555", pickupTime := some 5000 }

/-- Checkout details with a missing customer name. -/
def dNoName : OrderData :=
  { customerName := "", customerEmail := "alice@example.com",
    customerPhone := "555", pickupTime := some 5000 }

/-- A store with `uAlice` logged in and `iBread` in the cart. -/
def stCheckout : Store :=
  { users := [uAlice], listings := [lBread], orders := [],
    cart := { items := [iBread] }, session := some sAlice }

/-- A blocked user for the login scenario. -/
def uBlocked : User :=
  { id := "u9", name := "Mallory", email := "mallory@example.com",
    role := "customer", password := "pw9", createdAt := 0,
    status := "blocked" }

/-- A store holding only the blocked user and no session. -/
def stBlocked : Store :=
  { users := [uBlocked], listings := [], orders := [], cart := { items := [] },
    session := none }

/-- An admin user. -/
def uAdmin : User :=
  { id := "adm1", name := "Root", email := "admin@savebite.com",
    role := "admin", password := "admin123", createdAt := 0,
    status := "active" }

/-- An unexpired session for `uAdmin`. -/
def sAdmin : Session :=
  { userId := "adm1", userEmail := "admin@savebite.com", userName := "Root",
    userRole := "admin", createdAt := 0, expiresAt := 604800000 }

/-- A store with the admin logged in. -/
def stAdmin : Store :=
  { users := [uAdmin], listings := [], orders := [], cart := { items := [] },
    session := some sAdmin }

/-! ## Claims -/

/-- C6: for every pair of prices with `originalPrice > 0`, the computed
discount percentage equals `round((original − discounted)/original × 100)`;
in particular original 12.99 and discounted 7.99 give 38. -/
theorem calculateDiscount_spec (o d : ℚ) (h : 0 < o) :
    calculateDiscount o d = round ((o - d) / o * 100) ∧
    calculateDiscount 12.99 7.99 = 38 := by
  refine ⟨rfl, ?_⟩
  unfold calculateDiscount
  rw [round_eq]
  norm_num

/-- Witness for C6 at originalPrice 12.99, discountedPrice 7.99. -/
theorem calculateDiscount_spec_witness :
    (0 : ℚ) < 12.99 ∧
    (calculateDiscount 12.99 7.99 = round (((12.99 : ℚ) - 7.99) / 12.99 * 100) ∧
     calculateDiscount 12.99 7.99 = 38) :=
  ⟨by norm_num, calculateDiscount_spec 12.99 7.99 (by norm_num)⟩

/-- C10: with a businessId filter, `getOrders` returns exactly the orders
having at least one item of that business (as a permutation - the source
additionally sorts newest-first), and each returned order is the stored
record itself, so its items array is complete and unfiltered. -/
theorem getOrders_businessId (st : Store) (b : String) :
    List.Perm (getOrders st { businessId := some b })
      (st.orders.filter (fun o => o.items.any (fun i => i.businessId == b))) ∧
    ∀ o ∈ getOrders st { businessId := some b }, o ∈ st.orders := by
  have hdef : getOrders st { businessId := some b } =
      sortLe (fun a c => decide (c.createdAt ≤ a.createdAt))
        (st.orders.filter (fun o => o.items.any (fun i => i.businessId == b))) :=
    rfl
  constructor
  · rw [hdef]; exact sortLe_perm _ _
  · intro o ho
    rw [hdef] at ho
    exact List.mem_of_mem_filter ((sortLe_perm _ _).mem_iff.mp ho)

/-- C4: one `getListings` read persists status expired for every previously
active listing whose expiry date has passed; a second read at the same
instant changes nothing (the flip is idempotent); and any later read keeps
every expired listing expired. -/
theorem getListings_expiry_idempotent (st : Store) (now later : Int)
    (f g h : ListingFilters) :
    List.Forall₂
      (fun l l1 => l.status = "active" → l.expiryDate < now →
        l1.status = "expired")
      st.listings (((getListings st now f).2).listings) ∧
    ((getListings ((getListings st now f).2) now g).2).listings =
      ((getListings st now f).2).listings ∧
    List.Forall₂ (fun l1 l2 => l1.status = "expired" → l2.status = "expired")
      (((getListings st now f).2).listings)
      (((getListings ((getListings st now f).2) later h).2).listings) := by
  have hst : ∀ (s : Store) (t : Int) (ff : ListingFilters),
      ((getListings s t ff).2).listings = s.listings.map (expireFlip t) := by
    intro s t ff; rfl
  refine ⟨?_, ?_, ?_⟩
  · rw [hst, List.forall₂_map_right_iff]
    refine List.forall₂_same.mpr (fun l _ ha he => ?_)
    unfold expireFlip
    rw [if_pos ⟨by simpa [isExpired] using he, ha⟩]
  · simp only [hst, List.map_map]
    exact List.map_congr_left (fun l _ => expireFlip_idem now l)
  · simp only [hst]
    rw [List.forall₂_map_right_iff]
    exact List.forall₂_same.mpr (fun l _ hl => expireFlip_keeps_expired later l hl)

/-- C7: login with a blocked user's correct credentials fails with the
blocked-account message and leaves the store, hence the session, unchanged. -/
theorem login_blocked (st : Store) (now : Int) (email password : String)
    (u : User) (he : email ≠ "") (hp : password ≠ "")
    (hf : st.users.find? (fun v => v.email.toLower == email.toLower) = some u)
    (hpw : u.password = password) (hb : u.status = "blocked") :
    login st now email password =
      ({ success := false,
         message := "Your account has been blocked. Please contact support." },
       st) := by
  unfold login
  rw [if_neg (by simp [he, hp]), hf]
  simp [hpw, hb]

/-- Witness for C7: the blocked user `uBlocked` cannot log in with the
correct password, and the store keeps no session. -/
theorem login_blocked_witness :
    ("mallory@example.com" : String) ≠ "" ∧ ("pw9" : String) ≠ "" ∧
    stBlocked.users.find?
      (fun v => v.email.toLower == ("mallory@example.com" : String).toLower) =
      some uBlocked ∧
    uBlocked.password = "pw9" ∧ uBlocked.status = "blocked" ∧
    login stBlocked 0 "mallory@example.com" "pw9" =
      ({ success := false,
         message := "Your account has been blocked. Please contact support." },
       stBlocked) :=
  ⟨by decide, by decide,
   List.find?_cons_of_pos _ (beq_self_eq_true ("mallory@example.com".toLower)),
   rfl, rfl,
   login_blocked stBlocked 0 "mallory@example.com" "pw9" uBlocked
     (by decide) (by decide)
     (List.find?_cons_of_pos _ (beq_self_eq_true ("mallory@example.com".toLower)))
     rfl rfl⟩

/-- C8: `updateUserStatus` aimed at the caller's own id always fails -
even for a valid admin - and leaves every user record, in particular the
target's status, unchanged. -/
theorem updateUserStatus_self (st : Store) (now : Int) (ns : String)
    (cu : User) (h : (getCurrentUser st now).1 = some cu) :
    ((updateUserStatus st now cu.id ns).1).success = false ∧
    ((updateUserStatus st now cu.id ns).2).users = st.users := by
  have hframe := (getCurrentUser_frame st now).1
  rcases hg : getCurrentUser st now with ⟨cuq, st1⟩
  rw [hg] at h hframe
  simp only at h hframe
  subst h
  unfold updateUserStatus
  rw [hg]
  by_cases h1 : cu.role ≠ "admin"
  · simp [h1, hframe]
  · by_cases h2 : (st1.users.find? (fun u => u.id == cu.id)).isNone = true
    · simp [h1, h2, hframe]
      split <;> simp [hframe]
    · simp [h1, h2, hframe]
      split <;> simp [hframe]

/-- Witness for C8: the logged-in admin cannot block their own account. -/
theorem updateUserStatus_self_witness :
    (getCurrentUser stAdmin 0).1 = some uAdmin ∧
    (((updateUserStatus stAdmin 0 uAdmin.id "blocked").1).success = false ∧
     ((updateUserStatus stAdmin 0 uAdmin.id "blocked").2).users =
       stAdmin.users) :=
  ⟨rfl, updateUserStatus_self stAdmin 0 "blocked" uAdmin rfl⟩

/-- Closed form of the unauthenticated path of `createOrder`. -/
theorem createOrder_noauth_eq (st st1 : Store) (now : Int) (newId : String)
    (d : OrderData) (hg : getCurrentUser st now = (none, st1)) :
    createOrder st now newId d =
      ({ success := false,
         message := "Unauthorized: Please log in to place an order" }, st1) := by
  unfold createOrder
  rw [hg]

/-- Closed form of the empty-cart path of `createOrder`. -/
theorem createOrder_empty_eq (st st1 : Store) (now : Int) (newId : String)
    (d : OrderData) (cu : User)
    (hg : getCurrentUser st now = (some cu, st1))
    (hne : st1.cart.items = []) :
    createOrder st now newId d =
      ({ success := false, message := "Cart is empty" }, st1) := by
  unfold createOrder
  rw [hg]
  simp [hne]

/-- Closed form of the successful path of `createOrder`. -/
theorem createOrder_success_eq (st : Store) (now : Int) (newId : String)
    (d : OrderData) (cu : User) (st1 : Store)
    (hg : getCurrentUser st now = (some cu, st1))
    (hne : st1.cart.items ≠ []) :
    createOrder st now newId d =
      ({ success := true,
         order := some (newOrderOf cu st1.cart.items d now newId) },
       { st1 with
           orders := st1.orders ++ [newOrderOf cu st1.cart.items d now newId],
           listings := st1.cart.items.foldl decrementFirst st1.listings,
           cart := { items := [] } }) := by
  unfold createOrder
  rw [hg]
  simp [hne]

/-- C1: with an authenticated caller whose cart is exactly one item of
quantity 2 referencing an existing listing of quantity 2, `createOrder`
succeeds, drives that listing to quantity 0 and status sold-out, and
empties the cart; when no listing carries the item's id, the item is
skipped silently and the listings stay unchanged. -/
theorem createOrder_sellout (st : Store) (now : Int) (newId : String)
    (d : OrderData) (s : Session) (cu : User) (item : CartItem)
    (hs : st.session = some s) (hv : now < s.expiresAt)
    (hu : st.users.find? (fun u => u.id == s.userId) = some cu)
    (hcart : st.cart.items = [item]) (hq : item.quantity = 2) :
    ((createOrder st now newId d).1).success = true ∧
    ((createOrder st now newId d).2).cart.items = [] ∧
    (∀ pre L post, st.listings = pre ++ L :: post →
      (∀ l ∈ pre, l.id ≠ item.id) → L.id = item.id → L.quantity = 2 →
      ((createOrder st now newId d).2).listings =
        pre ++ { L with quantity := 0, status := "sold-out" } :: post) ∧
    ((∀ l ∈ st.listings, l.id ≠ item.id) →
      ((createOrder st now newId d).2).listings = st.listings) := by
  have hg : getCurrentUser st now = (some cu, st) := by
    rw [getCurrentUser_valid st now s hs hv, hu]
  have hne : st.cart.items ≠ [] := by
    rw [hcart]; exact List.cons_ne_nil item []
  have he := createOrder_success_eq st now newId d cu st hg hne
  rw [he]
  refine ⟨rfl, rfl, ?_, ?_⟩
  · intro pre L post hsplit hpre hL hq2
    show st.cart.items.foldl decrementFirst st.listings = _
    rw [hcart]
    show decrementFirst st.listings item = _
    rw [hsplit, decrementFirst_hit pre post L item hpre hL, hq2, hq]
    norm_num
  · intro hnone
    show st.cart.items.foldl decrementFirst st.listings = st.listings
    rw [hcart]
    show decrementFirst st.listings item = st.listings
    exact decrementFirst_skip st.listings item hnone

/-- Witness for C1: Alice checks out two loaves against a stock of two. -/
theorem createOrder_sellout_witness :
    stCheckout.session = some sAlice ∧ (0 : Int) < sAlice.expiresAt ∧
    stCheckout.users.find? (fun u => u.id == sAlice.userId) = some uAlice ∧
    stCheckout.cart.items = [iBread] ∧ iBread.quantity = 2 ∧
    (((createOrder stCheckout 0 "o1" dGood).1).success = true ∧
     ((createOrder stCheckout 0 "o1" dGood).2).cart.items = [] ∧
     (∀ pre L post, stCheckout.listings = pre ++ L :: post →
        (∀ l ∈ pre, l.id ≠ iBread.id) → L.id = iBread.id → L.quantity = 2 →
        ((createOrder stCheckout 0 "o1" dGood).2).listings =
          pre ++ { L with quantity := 0, status := "sold-out" } :: post) ∧
     ((∀ l ∈ stCheckout.listings, l.id ≠ iBread.id) →
        ((createOrder stCheckout 0 "o1" dGood).2).listings =
          stCheckout.listings)) :=
  ⟨rfl, by decide, rfl, rfl, rfl,
   createOrder_sellout stCheckout 0 "o1" dGood sAlice uAlice iBread rfl
     (by decide) rfl rfl rfl⟩

/-- C5: every order created by `createOrder` carries
subtotal = Σ discountedPrice·qty and savings = Σ (original − discounted)·qty
over its snapshotted items, tax = 0.08 · subtotal, and
total = subtotal + tax. -/
theorem createOrder_totals (st : Store) (now : Int) (newId : String)
    (d : OrderData)
    (hs : ((createOrder st now newId d).1).success = true) :
    ∃ o, ((createOrder st now newId d).1).order = some o ∧
      o.subtotal =
        (o.items.map (fun i => i.discountedPrice * (i.quantity : ℚ))).sum ∧
      o.savings =
        (o.items.map (fun i =>
          (i.originalPrice - i.discountedPrice) * (i.quantity : ℚ))).sum ∧
      o.tax = 0.08 * o.subtotal ∧
      o.total = o.subtotal + o.tax := by
  rcases hg : getCurrentUser st now with ⟨cuq, st1⟩
  cases cuq with
  | none =>
      unfold createOrder at hs
      rw [hg] at hs
      simp at hs
  | some cu =>
      by_cases hne : st1.cart.items = []
      · unfold createOrder at hs
        rw [hg] at hs
        simp [hne] at hs
      · rw [createOrder_success_eq st now newId d cu st1 hg hne]
        refine ⟨newOrderOf cu st1.cart.items d now newId, rfl, ?_, ?_, ?_, ?_⟩
        · exact orderSubtotal_eq st1.cart.items
        · exact orderSavings_eq st1.cart.items
        · exact orderTax_eq st1.cart.items
        · exact orderTotal_eq st1.cart.items

/-- Witness for C5: the totals of Alice's concrete order. -/
theorem createOrder_totals_witness :
    ((createOrder stCheckout 0 "o1" dGood).1).success = true ∧
    (∃ o, ((createOrder stCheckout 0 "o1" dGood).1).order = some o ∧
      o.subtotal =
        (o.items.map (fun i => i.discountedPrice * (i.quantity : ℚ))).sum ∧
      o.savings =
        (o.items.map (fun i =>
          (i.originalPrice - i.discountedPrice) * (i.quantity : ℚ))).sum ∧
      o.tax = 0.08 * o.subtotal ∧
      o.total = o.subtotal + o.tax) :=
  ⟨rfl, createOrder_totals stCheckout 0 "o1" dGood rfl⟩

/-- C9: a successful `updateOrderStatus` rewrites at most the first order
with the given id, changing only its `status` and `updatedAt` fields, and
every other order in the store is unchanged. -/
theorem updateOrderStatus_frame (st : Store) (now : Int) (id status : String)
    (hs : ((updateOrderStatus st now id status).1).success = true) :
    List.Forall₂
      (fun o o2 => o2 = o ∨ (o.id = id ∧
        o2 = { o with status := status, updatedAt := some now }))
      st.orders ((updateOrderStatus st now id status).2).orders := by
  have hframe := (getCurrentUser_frame st now).2.2.1
  rcases hg : getCurrentUser st now with ⟨cuq, st1⟩
  rw [hg] at hframe
  simp only at hframe
  unfold updateOrderStatus at hs ⊢
  rw [hg] at hs ⊢
  cases cuq with
  | none => simp at hs
  | some cu =>
      by_cases h1 : cu.role ≠ "business" ∧ cu.role ≠ "admin"
      · simp [h1] at hs
      · cases hfind : st1.orders.find? (fun o => o.id == id) with
        | none => simp [h1, hfind] at hs
        | some order =>
            by_cases h2 : cu.role = "business" ∧
                ¬ (order.items.any (fun i => i.businessId == cu.id)) = true
            · simp [h1, hfind, h2] at hs
            · simp only [h1, hfind, h2, if_false, if_neg, not_false_iff]
              rw [hframe] at *
              exact setOrderStatusFirst_forall₂ st.orders id status now

/-- An order of Alice's loaves, already persisted, for the C9 witness. -/
def oBread : Order :=
  { id := "ord1", userId := "u1", userName := "Alice",
    userEmail := "alice@example.com", items := [iBread],
    customerName := "Alice", customerEmail := "alice@example.com",
    customerPhone := "555", pickupTime := some 5000, notes := "",
    pickupLocationId := "b1", pickupLocationName := "Bakery",
    pickupAddress := "", subtotal := 10, savings := 6, tax := 0.8,
    total := 10.8, status := "pending", createdAt := 0 }

/-- A store with the admin logged in and one pending order. -/
def stOrders : Store :=
  { users := [uAdmin], listings := [], orders := [oBread],
    cart := { items := [] }, session := some sAdmin }

/-- Witness for C9: the admin completes Alice's order. -/
theorem updateOrderStatus_frame_witness :
    ((updateOrderStatus stOrders 0 "ord1" "completed").1).success = true ∧
    List.Forall₂
      (fun o o2 => o2 = o ∨ (o.id = "ord1" ∧
        o2 = { o with status := "completed", updatedAt := some (0 : Int) }))
      stOrders.orders
      ((updateOrderStatus stOrders 0 "ord1" "completed").2).orders :=
  ⟨rfl, updateOrderStatus_frame stOrders 0 "ord1" "completed" rfl⟩

/-- C3 counterexample: with a logged-in user and a non-empty cart,
`createOrder` succeeds even though `customerName` is missing - it creates
the order and decrements the listing from quantity 2 to 0, refuting the
claim that `createOrder` itself fails with a validation result. -/
theorem createOrder_no_validation :
    dNoName.customerName = "" ∧
    ((createOrder stCheckout 0 "o1" dNoName).1).success = true ∧
    ((createOrder stCheckout 0 "o1" dNoName).2).orders.map
      (fun o => o.id) = ["o1"] ∧
    stCheckout.listings.map (fun l => l.quantity) = [2] ∧
    ((createOrder stCheckout 0 "o1" dNoName).2).listings.map
      (fun l => l.quantity) = [0] :=
  ⟨rfl, rfl, rfl, rfl, rfl⟩

/-- C3 amended: the customerName/Email/Phone/pickupTime validation lives in
the checkout form handler, not in `createOrder`: whenever a required field
is missing or the pickup time is not strictly in the future,
`submitCheckoutForm` rejects the submission without calling `createOrder`,
so no order is created and no listing quantity changes; the rejection is a
UI notification rather than a ValidationError result of `createOrder`. -/
theorem submitCheckoutForm_rejects (st : Store) (now : Int) (newId : String)
    (d : OrderData) (hcv : checkoutValid d now = false) :
    submitCheckoutForm st now newId d = (false, st) := by
  unfold submitCheckoutForm
  rw [hcv]
  simp

/-- Witness for C3: checkout details without a customer name are rejected
with the store untouched. -/
theorem submitCheckoutForm_rejects_witness :
    checkoutValid dNoName 0 = false ∧
    submitCheckoutForm stCheckout 0 "o1" dNoName = (false, stCheckout) :=
  ⟨rfl, submitCheckoutForm_rejects stCheckout 0 "o1" dNoName rfl⟩

/-- A listing with three units in stock for the C2 counterexample. -/
def lFruit : Listing :=
  { id := "L2", businessId := "b2", businessName := "Grocer",
    foodName := "Fruit box", category := "produce", description := "Mixed",
    originalPrice := 16, discountedPrice := 10, quantity := 3,
    expiryDate := 999999999, createdAt := 0, status := "active" }

/-- The cart snapshot of `lFruit` requesting two units. -/
def iFruit : CartItem :=
  { id := "L2", businessId := "b2", businessName := "Grocer",
    name := "Fruit box", originalPrice := 16, discountedPrice := 10,
    quantity := 2 }

/-- Adding `iFruit` twice accumulates cart quantity 4 against stock 3. -/
def stOver : Store :=
  addToCart (addToCart
    { users := [uAlice], listings := [lFruit], orders := [],
      cart := { items := [] }, session := some sAlice } iFruit) iFruit

/-- C2 counterexample: starting from a store whose every listing quantity
is non-negative, two `addToCart` calls accumulate a cart quantity of 4
against a stock of 3, and `createOrder` then drives the listing quantity
to −1: the non-negativity invariant is not preserved. -/
theorem quantity_can_go_negative :
    (∀ l ∈ stOver.listings, 0 ≤ l.quantity) ∧
    stOver.cart.items.map (fun i => i.quantity) = [4] ∧
    ((createOrder stOver 0 "o9" dGood).1).success = true ∧
    ((createOrder stOver 0 "o9" dGood).2).listings.map
      (fun l => l.quantity) = [-1] :=
  ⟨by decide, rfl, rfl, rfl⟩

/-- The cart items processed first keep later bounds intact: folding the
purchase loop over items with distinct ids, each bounded by the stock of
every listing with its id, keeps every listing quantity non-negative. -/
theorem foldl_decrement_nonneg (items : List CartItem) :
    ∀ listings : List Listing,
      (items.map (fun i => i.id)).Nodup →
      (∀ l ∈ listings, 0 ≤ l.quantity) →
      (∀ it ∈ items, ∀ l ∈ listings, l.id = it.id →
        it.quantity ≤ l.quantity) →
      ∀ l1 ∈ items.foldl decrementFirst listings, 0 ≤ l1.quantity := by
  induction items with
  | nil =>
      intro listings _ hpos _ l1 h1
      exact hpos l1 h1
  | cons it rest ih =>
      intro listings hnodup hpos hbound l1 h1
      rw [List.foldl_cons] at h1
      rw [List.map_cons, List.nodup_cons] at hnodup
      refine ih (decrementFirst listings it) hnodup.2 ?_ ?_ l1 h1
      · intro l hl
        rcases decrementFirst_mem listings it l hl with
          h | ⟨l0, hl0, hid0, hlid, hq⟩
        · exact hpos l h
        · rw [hq]
          have hb := hbound it (List.mem_cons_self it rest) l0 hl0 hid0
          omega
      · intro it2 hit2 l hl hid2
        rcases decrementFirst_mem listings it l hl with
          h | ⟨l0, hl0, hid0, hlid, hq⟩
        · exact hbound it2 (List.mem_cons_of_mem it hit2) l h hid2
        · exact absurd
            (List.mem_map.mpr ⟨it2, hit2, ((hid2.symm.trans hlid).trans hid0)⟩)
            hnodup.1

/-- C2 amended: listing quantities stay non-negative integers under
`addToCart` (which never mutates listings) and under `createOrder`
provided each cart item requests no more than the stock of every listing
carrying its id and the cart item ids are distinct; without that bound the
code clamps nothing and `createOrder` can drive a quantity negative. -/
theorem quantity_invariant_amended (st : Store) (now : Int) (newId : String)
    (d : OrderData) (item : CartItem)
    (hnodup : (st.cart.items.map (fun i => i.id)).Nodup)
    (hpos : ∀ l ∈ st.listings, 0 ≤ l.quantity)
    (hbound : ∀ it ∈ st.cart.items, ∀ l ∈ st.listings,
      l.id = it.id → it.quantity ≤ l.quantity) :
    (addToCart st item).listings = st.listings ∧
    ∀ l ∈ ((createOrder st now newId d).2).listings, 0 ≤ l.quantity := by
  constructor
  · unfold addToCart
    split <;> rfl
  · have hframe := getCurrentUser_frame st now
    rcases hg : getCurrentUser st now with ⟨cuq, st1⟩
    rw [hg] at hframe
    simp only at hframe
    obtain ⟨hu1, hl1, ho1, hc1⟩ := hframe
    cases cuq with
    | none =>
        rw [createOrder_noauth_eq st st1 now newId d hg]
        intro l1 h1
        have h2 : l1 ∈ st1.listings := h1
        rw [hl1] at h2
        exact hpos l1 h2
    | some cu =>
        by_cases hne : st1.cart.items = []
        · rw [createOrder_empty_eq st st1 now newId d cu hg hne]
          intro l1 h1
          have h2 : l1 ∈ st1.listings := h1
          rw [hl1] at h2
          exact hpos l1 h2
        · rw [createOrder_success_eq st now newId d cu st1 hg hne]
          intro l1 h1
          have h2 : l1 ∈ st1.cart.items.foldl decrementFirst st1.listings := h1
          rw [hl1, hc1] at h2
          exact foldl_decrement_nonneg st.cart.items st.listings hnodup
            hpos hbound l1 h2

/-- Witness for C2: Alice's bounded checkout keeps every quantity at or
above zero, and adding to the cart leaves listings untouched. -/
theorem quantity_invariant_amended_witness :
    (stCheckout.cart.items.map (fun i => i.id)).Nodup ∧
    (∀ l ∈ stCheckout.listings, 0 ≤ l.quantity) ∧
    (∀ it ∈ stCheckout.cart.items, ∀ l ∈ stCheckout.listings,
      l.id = it.id → it.quantity ≤ l.quantity) ∧
    ((addToCart stCheckout iBread).listings = stCheckout.listings ∧
     ∀ l ∈ ((createOrder stCheckout 0 "o1" dGood).2).listings,
       0 ≤ l.quantity) :=
  ⟨by decide, by decide, by decide,
   quantity_invariant_amended stCheckout 0 "o1" dGood iBread
     (by decide) (by decide) (by decide)⟩

end SaveBite
